import Mathlib

/-!
Shallow embedding of `src/vector_math_calculator.py`.

Vectors are `List α` over a linear ordered field (`ℚ` where the claims are
exact, `ℝ` where the source calls `math.sqrt` or trigonometric functions).
Fallible operations (the source raises `ValueError` / `ZeroDivisionError`)
return `Except String _`, carrying the source's error message.  Python's
float division raises `ZeroDivisionError` on a zero divisor, which `pydiv`
models; Python's `round` rounds halves to even, which `pyround` models.
-/

namespace VectorMath

variable {α : Type} [LinearOrderedField α]

/-- Python float division: raises `ZeroDivisionError` on a zero divisor. -/
def pydiv [DecidableEq α] (a b : α) : Except String α :=
  if b = 0 then Except.error "float division by zero" else Except.ok (a / b)

/-- Python `round`: round half to even (banker's rounding). -/
def pyround [FloorRing α] [DecidableEq α] (x : α) : ℤ :=
  if Int.fract x = 1 / 2 then (if ⌊x⌋ % 2 = 0 then ⌊x⌋ else ⌊x⌋ + 1) else round x

/-- `vector_addition(v1, v2)` from the source. -/
def vector_addition (v1 v2 : List α) : Except String (List α) :=
  if v1.length ≠ v2.length then Except.error "Vectors must have the same dimensions."
  else Except.ok (List.zipWith (fun a b => a + b) v1 v2)

/-- `vector_subtraction(v1, v2)` from the source. -/
def vector_subtraction (v1 v2 : List α) : Except String (List α) :=
  if v1.length ≠ v2.length then Except.error "Vectors must have the same dimensions."
  else Except.ok (List.zipWith (fun a b => a - b) v1 v2)

/-- `scalar_multiplication(v, scalar)` from the source: `[scalar * v[i] ...]`. -/
def scalar_multiplication (v : List α) (scalar : α) : List α :=
  v.map (fun x => scalar * x)

/-- `dot_product(v1, v2)` from the source. -/
def dot_product (v1 v2 : List α) : Except String α :=
  if v1.length ≠ v2.length then Except.error "Vectors must have the same dimensions."
  else Except.ok (List.zipWith (fun a b => a * b) v1 v2).sum

/-- `cross_product(v1, v2)` from the source: defined only for length-3 operands. -/
def cross_product (v1 v2 : List α) : Except String (List α) :=
  match v1, v2 with
  | [a1, a2, a3], [b1, b2, b3] =>
      Except.ok [a2 * b3 - a3 * b2, a3 * b1 - a1 * b3, a1 * b2 - a2 * b1]
  | _, _ => Except.error "Cross product is defined only for 3-dimensional vectors."

/-- `vector_projection(v1, v2)` from the source. -/
def vector_projection [DecidableEq α] (v1 v2 : List α) : Except String (List α) :=
  if v1.length ≠ v2.length then Except.error "Vectors must have the same dimensions."
  else
    (dot_product v1 v2).bind fun dot_v1v2 =>
      (dot_product v2 v2).bind fun mag_v2_squared =>
        (pydiv dot_v1v2 mag_v2_squared).map fun q => scalar_multiplication v2 q

/-- `vector_reflection(v, normal)` from the source. -/
def vector_reflection [DecidableEq α] (v normal : List α) : Except String (List α) :=
  if v.length ≠ normal.length then Except.error "Vectors must have the same dimensions."
  else
    (dot_product v normal).bind fun dvn =>
      (dot_product normal normal).bind fun dnn =>
        (pydiv (2 * dvn) dnn).bind fun scalar =>
          vector_subtraction v (scalar_multiplication normal scalar)

/-- `vector_refraction(v, normal, eta)` from the source (over `ℝ`: uses `math.sqrt`). -/
noncomputable def vector_refraction (v normal : List ℝ) (eta : ℝ) : Except String (List ℝ) :=
  if v.length ≠ normal.length then Except.error "Vectors must have the same dimensions."
  else
    (dot_product v normal).bind fun dot_vn =>
      let k : ℝ := 1 - eta * eta * (1 - dot_vn * dot_vn)
      if k < 0 then Except.ok (List.replicate v.length 0)
      else
        vector_subtraction (scalar_multiplication v eta)
          (scalar_multiplication normal (eta * dot_vn + Real.sqrt k))

/-- `vector_face_forward(n, i, ng)` from the source: `ng` is never used. -/
def vector_face_forward (n i _ng : List α) : Except String (List α) :=
  (dot_product n i).map fun dot_ni =>
    if dot_ni < 0 then i else scalar_multiplication i (-1)

/-- `vector_scale(v, s)` from the source: `[v[i] * s ...]`. -/
def vector_scale (v : List α) (s : α) : List α :=
  v.map (fun x => x * s)

/-- `vector_distance(v1, v2)` from the source (over `ℝ`: uses `math.sqrt`). -/
noncomputable def vector_distance (v1 v2 : List ℝ) : Except String ℝ :=
  if v1.length ≠ v2.length then Except.error "Vectors must have the same dimensions."
  else Except.ok (Real.sqrt (List.zipWith (fun a b => (a - b) ^ 2) v1 v2).sum)

/-- `vector_absolute(v)` from the source. -/
def vector_absolute (v : List α) : List α :=
  v.map (fun x => |x|)

/-- `vector_minimum(v1, v2)` from the source. -/
def vector_minimum (v1 v2 : List α) : Except String (List α) :=
  if v1.length ≠ v2.length then Except.error "Vectors must have the same dimensions."
  else Except.ok (List.zipWith (fun a b => min a b) v1 v2)

/-- `vector_maximum(v1, v2)` from the source. -/
def vector_maximum (v1 v2 : List α) : Except String (List α) :=
  if v1.length ≠ v2.length then Except.error "Vectors must have the same dimensions."
  else Except.ok (List.zipWith (fun a b => max a b) v1 v2)

/-- `vector_floor(v)` from the source (`math.floor` componentwise). -/
def vector_floor [FloorRing α] (v : List α) : List α :=
  v.map (fun x => (⌊x⌋ : α))

/-- `vector_ceil(v)` from the source (`math.ceil` componentwise). -/
def vector_ceil [FloorRing α] (v : List α) : List α :=
  v.map (fun x => (⌈x⌉ : α))

/-- `vector_snap(v, increment)` from the source: `[round(v[i]/increment)*increment ...]`,
evaluated left to right, with no guard on `increment`; each element performs the
division `v[i] / increment`, which raises on a zero divisor. -/
def vector_snap [FloorRing α] [DecidableEq α] : List α → α → Except String (List α)
  | [], _ => Except.ok []
  | x :: xs, increment =>
      (pydiv x increment).bind fun q =>
        (vector_snap xs increment).map fun rest => ((pyround q : α) * increment) :: rest

/-- `vector_wrap(v, min_values, max_values)` from the source:
`min(max(v[i], min_values[i]), max_values[i])` componentwise. -/
def vector_wrap (v min_values max_values : List α) : Except String (List α) :=
  if v.length ≠ min_values.length ∨ v.length ≠ max_values.length then
    Except.error "Vector dimensions must match min_values and max_values."
  else
    Except.ok (List.zipWith (fun t mx => min t mx)
      (List.zipWith (fun x mn => max x mn) v min_values) max_values)

/-- `vector_sin(v)` from the source (over `ℝ`). -/
noncomputable def vector_sin (v : List ℝ) : List ℝ :=
  v.map (fun x => Real.sin x)

/-- `vector_cos(v)` from the source (over `ℝ`). -/
noncomputable def vector_cos (v : List ℝ) : List ℝ :=
  v.map (fun x => Real.cos x)

/-- `vector_tan(v)` from the source (over `ℝ`). -/
noncomputable def vector_tan (v : List ℝ) : List ℝ :=
  v.map (fun x => Real.tan x)

end VectorMath

namespace VectorMath

/-- Helper: subtracting `b` back out of a componentwise sum recovers `a`. -/
theorem zipWith_add_sub_cancel {α : Type} [LinearOrderedField α] :
    ∀ (a b : List α), a.length = b.length →
      List.zipWith (fun x y => x - y) (List.zipWith (fun x y => x + y) a b) b = a := by
  intro a
  induction a with
  | nil => intro b _; simp
  | cons x xs ih =>
    intro b hb
    cases b with
    | nil => simp at hb
    | cons y ys =>
      simp only [List.zipWith_cons_cons, add_sub_cancel_right, List.cons.injEq, true_and]
      exact ih ys (by simpa using hb)

/-- C7: for equal-length vectors, subtraction undoes addition exactly:
`vector_subtraction (vector_addition a b) b` succeeds and returns `a`. -/
theorem addition_subtraction_round_trip (a b : List ℚ) (h : a.length = b.length) :
    ∃ s, vector_addition a b = Except.ok s ∧ vector_subtraction s b = Except.ok a := by
  refine ⟨List.zipWith (fun x y => x + y) a b, ?_, ?_⟩
  · simp [vector_addition, h]
  · have hlen : (List.zipWith (fun x y => x + y) a b).length = b.length := by
      simp [List.length_zipWith, h]
    simp [vector_subtraction, hlen, zipWith_add_sub_cancel a b h]

/-- Witness for C7 at `a = [1, 2]`, `b = [3, 4]`. -/
theorem addition_subtraction_round_trip_witness :
    ([1, 2] : List ℚ).length = ([3, 4] : List ℚ).length ∧
      ∃ s, vector_addition ([1, 2] : List ℚ) [3, 4] = Except.ok s ∧
        vector_subtraction s [3, 4] = Except.ok [1, 2] :=
  ⟨by decide, addition_subtraction_round_trip [1, 2] [3, 4] (by decide)⟩

/-- C8: `scalar_multiplication` and `vector_scale` agree on every vector and scalar. -/
theorem scalar_multiplication_eq_vector_scale (v : List ℚ) (s : ℚ) :
    scalar_multiplication v s = vector_scale v s := by
  simp [scalar_multiplication, vector_scale, mul_comm]

/-- Counterexample to C2: calling snap with increment = 0 on the empty vector is
not rejected at all — it returns the empty vector successfully, so no guard on
the increment exists. -/
theorem snap_zero_increment_empty_not_rejected :
    vector_snap ([] : List ℚ) 0 = Except.ok [] := rfl

/-- C2 (amended): snap has no guard on the increment.  With increment = 0 the
unguarded per-element division fails with Python's `ZeroDivisionError`
(`"float division by zero"`) as soon as one element is processed, while the
empty vector returns `[]` successfully — there is no explicitly chosen
rejection of the zero increment itself. -/
theorem snap_zero_increment_unguarded (x : ℚ) (xs : List ℚ) :
    vector_snap (x :: xs) 0 = Except.error "float division by zero" ∧
      vector_snap ([] : List ℚ) 0 = Except.ok [] := by
  exact ⟨by simp [vector_snap, pydiv, Except.bind], rfl⟩

/-- C4: with `n` and `i` of equal length, face-forward returns `i` unchanged
when `dot(n, i) < 0` and `i` scaled by `-1` otherwise; the third parameter has
no influence on the result. -/
theorem face_forward_spec (n i ng : List ℚ) (h : n.length = i.length) :
    ∃ d, dot_product n i = Except.ok d ∧
      vector_face_forward n i ng =
        Except.ok (if d < 0 then i else scalar_multiplication i (-1)) ∧
      ∀ ng2 : List ℚ, vector_face_forward n i ng2 = vector_face_forward n i ng := by
  refine ⟨(List.zipWith (fun a b => a * b) n i).sum, ?_, ?_, fun _ => rfl⟩
  · simp [dot_product, h]
  · simp [vector_face_forward, dot_product, h, Except.map]

/-- Witness for C4 at `n = [1]`, `i = [-1]`, `ng = [2, 3]`. -/
theorem face_forward_spec_witness :
    ([1] : List ℚ).length = ([-1] : List ℚ).length ∧
      ∃ d, dot_product ([1] : List ℚ) [-1] = Except.ok d ∧
        vector_face_forward ([1] : List ℚ) [-1] [2, 3] =
          Except.ok (if d < 0 then [-1] else scalar_multiplication [-1] (-1)) ∧
        ∀ ng2 : List ℚ, vector_face_forward ([1] : List ℚ) [-1] ng2 =
          vector_face_forward ([1] : List ℚ) [-1] [2, 3] :=
  ⟨by decide, face_forward_spec [1] [-1] [2, 3] (by decide)⟩

/-- C9: face-forward never validates its third parameter: whenever `n` and `i`
have equal length, the call succeeds with one fixed result for every `ng`,
whatever its length. -/
theorem face_forward_ignores_ng (n i : List ℚ) (h : n.length = i.length) :
    ∃ r, ∀ ng : List ℚ, vector_face_forward n i ng = Except.ok r := by
  refine ⟨if (List.zipWith (fun a b => a * b) n i).sum < 0 then i
    else scalar_multiplication i (-1), fun ng => ?_⟩
  simp [vector_face_forward, dot_product, h, Except.map]

/-- Witness for C9 at `n = [1, 2]`, `i = [3, 4]`. -/
theorem face_forward_ignores_ng_witness :
    ([1, 2] : List ℚ).length = ([3, 4] : List ℚ).length ∧
      ∃ r, ∀ ng : List ℚ, vector_face_forward ([1, 2] : List ℚ) [3, 4] ng = Except.ok r :=
  ⟨by decide, face_forward_ignores_ng [1, 2] [3, 4] (by decide)⟩

/-- C6: cross product is anti-commutative on length-3 operands
(`cross a b = scalarMultiply (cross b a) (-1)`), and any operand of length ≠ 3
is rejected with the invalid-dimension error. -/
theorem cross_product_anticomm_and_dim_check (a b c d : List ℚ)
    (ha : a.length = 3) (hb : b.length = 3) (hcd : c.length ≠ 3 ∨ d.length ≠ 3) :
    (∃ r r2, cross_product a b = Except.ok r ∧ cross_product b a = Except.ok r2 ∧
      r = scalar_multiplication r2 (-1)) ∧
    cross_product c d =
      Except.error "Cross product is defined only for 3-dimensional vectors." := by
  obtain ⟨a1, a2, a3, rfl⟩ := List.length_eq_three.mp ha
  obtain ⟨b1, b2, b3, rfl⟩ := List.length_eq_three.mp hb
  constructor
  · refine ⟨_, _, rfl, rfl, ?_⟩
    simp only [cross_product, scalar_multiplication, List.map_cons, List.map_nil,
      List.cons.injEq, and_true]
    refine ⟨by ring, by ring, by ring⟩
  · unfold cross_product
    split
    · simp at hcd
    · rfl

/-- Witness for C6 at `a = [1, 0, 0]`, `b = [0, 1, 0]`, `c = []`, `d = []`. -/
theorem cross_product_anticomm_and_dim_check_witness :
    ([1, 0, 0] : List ℚ).length = 3 ∧ ([0, 1, 0] : List ℚ).length = 3 ∧
      (([] : List ℚ).length ≠ 3 ∨ ([] : List ℚ).length ≠ 3) ∧
      ((∃ r r2, cross_product ([1, 0, 0] : List ℚ) [0, 1, 0] = Except.ok r ∧
          cross_product ([0, 1, 0] : List ℚ) [1, 0, 0] = Except.ok r2 ∧
          r = scalar_multiplication r2 (-1)) ∧
        cross_product ([] : List ℚ) [] =
          Except.error "Cross product is defined only for 3-dimensional vectors.") :=
  ⟨by decide, by decide, by decide,
    cross_product_anticomm_and_dim_check [1, 0, 0] [0, 1, 0] [] []
      (by decide) (by decide) (by decide)⟩

/-- C5: for equal-length operands, wrap clamps — provided `mins[i] ≤ maxs[i]`,
component `i` of the result lies in `[mins[i], maxs[i]]`, and a component
already inside its bounds is returned unchanged. -/
theorem wrap_clamps_within_bounds (v mins maxs r : List ℚ) (i : ℕ)
    (h1 : v.length = mins.length) (h2 : v.length = maxs.length)
    (hr : vector_wrap v mins maxs = Except.ok r)
    (hv : i < v.length) (hm : i < mins.length) (hx : i < maxs.length) :
    r.length = v.length ∧
      ∃ hri : i < r.length,
        (mins[i] ≤ maxs[i] → mins[i] ≤ r[i] ∧ r[i] ≤ maxs[i]) ∧
        (mins[i] ≤ v[i] → v[i] ≤ maxs[i] → r[i] = v[i]) := by
  have hcond : ¬(v.length ≠ mins.length ∨ v.length ≠ maxs.length) := by omega
  unfold vector_wrap at hr
  rw [if_neg hcond] at hr
  have hrr : List.zipWith (fun t mx => min t mx)
      (List.zipWith (fun x mn => max x mn) v mins) maxs = r := Except.ok.inj hr
  subst hrr
  have hlen : (List.zipWith (fun t mx => min t mx)
      (List.zipWith (fun x mn => max x mn) v mins) maxs).length = v.length := by
    simp only [List.length_zipWith]
    omega
  refine ⟨hlen, ?_⟩
  have hri : i < (List.zipWith (fun t mx => min t mx)
      (List.zipWith (fun x mn => max x mn) v mins) maxs).length := by
    rw [hlen]; exact hv
  refine ⟨hri, ?_, ?_⟩ <;> simp only [List.getElem_zipWith]
  · intro hbnd
    exact ⟨le_min (le_max_right _ _) hbnd, min_le_right _ _⟩
  · intro hlo hhi
    rw [max_eq_left hlo, min_eq_left hhi]

/-- Witness for C5 at `wrap([5, -2, 10], [0, 0, 0], [8, 8, 8]) = [5, 0, 8]`, index 0. -/
theorem wrap_clamps_within_bounds_witness :
    ([5, -2, 10] : List ℚ).length = ([0, 0, 0] : List ℚ).length ∧
      ([5, -2, 10] : List ℚ).length = ([8, 8, 8] : List ℚ).length ∧
      vector_wrap ([5, -2, 10] : List ℚ) [0, 0, 0] [8, 8, 8] = Except.ok [5, 0, 8] ∧
      (([5, 0, 8] : List ℚ).length = ([5, -2, 10] : List ℚ).length ∧
        ∃ _ : 0 < ([5, 0, 8] : List ℚ).length,
          (([0, 0, 0] : List ℚ)[0] ≤ ([8, 8, 8] : List ℚ)[0] →
            ([0, 0, 0] : List ℚ)[0] ≤ ([5, 0, 8] : List ℚ)[0] ∧
            ([5, 0, 8] : List ℚ)[0] ≤ ([8, 8, 8] : List ℚ)[0]) ∧
          (([0, 0, 0] : List ℚ)[0] ≤ ([5, -2, 10] : List ℚ)[0] →
            ([5, -2, 10] : List ℚ)[0] ≤ ([8, 8, 8] : List ℚ)[0] →
            ([5, 0, 8] : List ℚ)[0] = ([5, -2, 10] : List ℚ)[0])) :=
  ⟨by decide, by decide, by rfl,
    wrap_clamps_within_bounds [5, -2, 10] [0, 0, 0] [8, 8, 8] [5, 0, 8] 0
      (by decide) (by decide) (by rfl) (by decide) (by decide) (by decide)⟩

/-- C3: every equal-length-requiring binary operation called on operands of
differing lengths fails with the dimension-mismatch error and produces no
partial result.  (For wrap, a mismatch against either bound vector is
rejected, whatever the third operand is.) -/
theorem mismatched_lengths_rejected (v1 v2 mins maxs : List ℝ) (eta : ℝ)
    (h : v1.length ≠ v2.length) :
    vector_addition v1 v2 = Except.error "Vectors must have the same dimensions." ∧
    vector_subtraction v1 v2 = Except.error "Vectors must have the same dimensions." ∧
    dot_product v1 v2 = Except.error "Vectors must have the same dimensions." ∧
    vector_projection v1 v2 = Except.error "Vectors must have the same dimensions." ∧
    vector_reflection v1 v2 = Except.error "Vectors must have the same dimensions." ∧
    vector_refraction v1 v2 eta = Except.error "Vectors must have the same dimensions." ∧
    vector_distance v1 v2 = Except.error "Vectors must have the same dimensions." ∧
    vector_minimum v1 v2 = Except.error "Vectors must have the same dimensions." ∧
    vector_maximum v1 v2 = Except.error "Vectors must have the same dimensions." ∧
    vector_wrap v1 v2 maxs =
      Except.error "Vector dimensions must match min_values and max_values." ∧
    vector_wrap v1 mins v2 =
      Except.error "Vector dimensions must match min_values and max_values." := by
  refine ⟨?_, ?_, ?_, ?_, ?_, ?_, ?_, ?_, ?_, ?_, ?_⟩
  · simp [vector_addition, h]
  · simp [vector_subtraction, h]
  · simp [dot_product, h]
  · simp [vector_projection, h]
  · simp [vector_reflection, h]
  · simp [vector_refraction, h]
  · simp [vector_distance, h]
  · simp [vector_minimum, h]
  · simp [vector_maximum, h]
  · simp [vector_wrap, h]
  · simp [vector_wrap, h]

/-- Witness for C3 at `v1 = [1]`, `v2 = []`. -/
theorem mismatched_lengths_rejected_witness :
    ([1] : List ℝ).length ≠ ([] : List ℝ).length ∧
      vector_addition ([1] : List ℝ) [] =
        Except.error "Vectors must have the same dimensions." ∧
      vector_subtraction ([1] : List ℝ) [] =
        Except.error "Vectors must have the same dimensions." ∧
      dot_product ([1] : List ℝ) [] =
        Except.error "Vectors must have the same dimensions." ∧
      vector_projection ([1] : List ℝ) [] =
        Except.error "Vectors must have the same dimensions." ∧
      vector_reflection ([1] : List ℝ) [] =
        Except.error "Vectors must have the same dimensions." ∧
      vector_refraction ([1] : List ℝ) [] 0 =
        Except.error "Vectors must have the same dimensions." ∧
      vector_distance ([1] : List ℝ) [] =
        Except.error "Vectors must have the same dimensions." ∧
      vector_minimum ([1] : List ℝ) [] =
        Except.error "Vectors must have the same dimensions." ∧
      vector_maximum ([1] : List ℝ) [] =
        Except.error "Vectors must have the same dimensions." ∧
      vector_wrap ([1] : List ℝ) [] [] =
        Except.error "Vector dimensions must match min_values and max_values." ∧
      vector_wrap ([1] : List ℝ) [] [] =
        Except.error "Vector dimensions must match min_values and max_values." :=
  ⟨by decide, mismatched_lengths_rejected [1] [] [] [] 0 (by decide)⟩

/-- C1: refraction computes `k = 1 - eta^2 * (1 - dot(v, n)^2)` once; if `k < 0`
it returns the zero vector of the same length as `v`, otherwise it returns
`eta*v - (eta*dot(v, n) + sqrt k)*n`. -/
theorem refraction_spec (v n : List ℝ) (eta d k : ℝ) (h : v.length = n.length)
    (hd : dot_product v n = Except.ok d) (hk : k = 1 - eta * eta * (1 - d * d)) :
    vector_refraction v n eta =
      Except.ok (if k < 0 then List.replicate v.length 0
        else List.zipWith (fun a b => a - b) (scalar_multiplication v eta)
          (scalar_multiplication n (eta * d + Real.sqrt k))) := by
  subst hk
  unfold vector_refraction
  rw [if_neg (by simp [h]), hd]
  simp only [Except.bind]
  split_ifs with hkk
  · rfl
  · simp [vector_subtraction, scalar_multiplication, h]

/-- Witness for C1 at `v = [1, 0]`, `n = [0, 1]`, `eta = 2` (total internal
reflection: `k = -3 < 0`). -/
theorem refraction_spec_witness :
    ([1, 0] : List ℝ).length = ([0, 1] : List ℝ).length ∧
      dot_product ([1, 0] : List ℝ) [0, 1] = Except.ok 0 ∧
      (1 - 2 * 2 * (1 - 0 * 0) : ℝ) = 1 - 2 * 2 * (1 - 0 * 0) ∧
      vector_refraction [1, 0] [0, 1] 2 =
        Except.ok (if (1 - 2 * 2 * (1 - 0 * 0) : ℝ) < 0 then
            List.replicate ([1, 0] : List ℝ).length 0
          else List.zipWith (fun a b => a - b) (scalar_multiplication [1, 0] 2)
            (scalar_multiplication [0, 1]
              (2 * 0 + Real.sqrt (1 - 2 * 2 * (1 - 0 * 0))))) :=
  ⟨rfl, by simp [dot_product], rfl,
    refraction_spec [1, 0] [0, 1] 2 0 _ rfl (by simp [dot_product]) rfl⟩

/-- Helper: with a non-zero increment, snap succeeds on every vector. -/
theorem vector_snap_ok {α : Type} [LinearOrderedField α] [FloorRing α] [DecidableEq α]
    (v : List α) (inc : α) (h : inc ≠ 0) :
    vector_snap v inc = Except.ok (v.map fun x => (pyround (x / inc) : α) * inc) := by
  induction v with
  | nil => rfl
  | cons x xs ih => simp [vector_snap, pydiv, h, ih, Except.bind, Except.map]

/-- C10: every vector-returning operation preserves length — on success the
result has exactly the length of the primary input vector (both branches of
refraction included, and wrap's clamping included). -/
theorem operations_preserve_length
    (v1 v2 mins maxs ng a3 b3 : List ℚ) (s inc d : ℚ)
    (w nrm : List ℝ) (eta : ℝ)
    (h12 : v1.length = v2.length)
    (hmn : v1.length = mins.length) (hmx : v1.length = maxs.length)
    (hinc : inc ≠ 0)
    (ha3 : a3.length = 3) (hb3 : b3.length = 3)
    (hd : dot_product v2 v2 = Except.ok d) (hdnz : d ≠ 0)
    (hw : w.length = nrm.length) :
    (vector_addition v1 v2).map List.length = Except.ok v1.length ∧
    (vector_subtraction v1 v2).map List.length = Except.ok v1.length ∧
    (scalar_multiplication v1 s).length = v1.length ∧
    (vector_scale v1 s).length = v1.length ∧
    (cross_product a3 b3).map List.length = Except.ok a3.length ∧
    (vector_projection v1 v2).map List.length = Except.ok v1.length ∧
    (vector_reflection v1 v2).map List.length = Except.ok v1.length ∧
    (vector_refraction w nrm eta).map List.length = Except.ok w.length ∧
    (vector_face_forward v1 v2 ng).map List.length = Except.ok v2.length ∧
    (vector_absolute v1).length = v1.length ∧
    (vector_minimum v1 v2).map List.length = Except.ok v1.length ∧
    (vector_maximum v1 v2).map List.length = Except.ok v1.length ∧
    (vector_floor v1).length = v1.length ∧
    (vector_ceil v1).length = v1.length ∧
    (vector_snap v1 inc).map List.length = Except.ok v1.length ∧
    (vector_wrap v1 mins maxs).map List.length = Except.ok v1.length ∧
    (vector_sin w).length = w.length ∧
    (vector_cos w).length = w.length ∧
    (vector_tan w).length = w.length := by
  have hdot12 : dot_product v1 v2 =
      Except.ok ((List.zipWith (fun a b => a * b) v1 v2).sum) := by
    simp [dot_product, h12]
  have hdw : dot_product w nrm =
      Except.ok ((List.zipWith (fun a b => a * b) w nrm).sum) := by
    simp [dot_product, hw]
  refine ⟨?_, ?_, ?_, ?_, ?_, ?_, ?_, ?_, ?_, ?_, ?_, ?_, ?_, ?_, ?_, ?_, ?_, ?_, ?_⟩
  · simp [vector_addition, h12, Except.map, List.length_zipWith]
  · simp [vector_subtraction, h12, Except.map, List.length_zipWith]
  · simp [scalar_multiplication]
  · simp [vector_scale]
  · obtain ⟨a1, a2, a3', rfl⟩ := List.length_eq_three.mp ha3
    obtain ⟨b1, b2, b3', rfl⟩ := List.length_eq_three.mp hb3
    simp [cross_product, Except.map]
  · simp [vector_projection, h12, hdot12, hd, pydiv, hdnz, Except.bind, Except.map,
      scalar_multiplication]
  · simp [vector_reflection, h12, hdot12, hd, pydiv, hdnz, Except.bind, Except.map,
      vector_subtraction, scalar_multiplication, List.length_zipWith]
  · unfold vector_refraction
    rw [if_neg (by simp [hw]), hdw]
    simp only [Except.bind]
    split_ifs with hkk
    · simp [Except.map]
    · simp [vector_subtraction, scalar_multiplication, hw, Except.map, List.length_zipWith]
  · simp [vector_face_forward, dot_product, h12, Except.map, apply_ite List.length,
      scalar_multiplication]
  · simp [vector_absolute]
  · simp [vector_minimum, h12, Except.map, List.length_zipWith]
  · simp [vector_maximum, h12, Except.map, List.length_zipWith]
  · simp [vector_floor]
  · simp [vector_ceil]
  · rw [vector_snap_ok v1 inc hinc]
    simp [Except.map]
  · have hcw : ¬(v1.length ≠ mins.length ∨ v1.length ≠ maxs.length) := by omega
    unfold vector_wrap
    rw [if_neg hcw]
    simp only [Except.map, List.length_zipWith, Except.ok.injEq]
    omega
  · simp [vector_sin]
  · simp [vector_cos]
  · simp [vector_tan]

/-- Witness for C10 on concrete vectors. -/
theorem operations_preserve_length_witness :
    ([2] : List ℚ).length = ([1] : List ℚ).length ∧
      ([2] : List ℚ).length = ([0] : List ℚ).length ∧
      ([2] : List ℚ).length = ([8] : List ℚ).length ∧
      (1 : ℚ) ≠ 0 ∧
      ([1, 0, 0] : List ℚ).length = 3 ∧
      ([0, 1, 0] : List ℚ).length = 3 ∧
      dot_product ([1] : List ℚ) [1] = Except.ok 1 ∧
      (1 : ℚ) ≠ 0 ∧
      ([1, 0] : List ℝ).length = ([0, 1] : List ℝ).length ∧
      ((vector_addition ([2] : List ℚ) [1]).map List.length = Except.ok 1 ∧
        (vector_subtraction ([2] : List ℚ) [1]).map List.length = Except.ok 1 ∧
        (scalar_multiplication ([2] : List ℚ) 5).length = 1 ∧
        (vector_scale ([2] : List ℚ) 5).length = 1 ∧
        (cross_product ([1, 0, 0] : List ℚ) [0, 1, 0]).map List.length = Except.ok 3 ∧
        (vector_projection ([2] : List ℚ) [1]).map List.length = Except.ok 1 ∧
        (vector_reflection ([2] : List ℚ) [1]).map List.length = Except.ok 1 ∧
        (vector_refraction [1, 0] [0, 1] 2).map List.length = Except.ok 2 ∧
        (vector_face_forward ([2] : List ℚ) [1] [7]).map List.length = Except.ok 1 ∧
        (vector_absolute ([2] : List ℚ)).length = 1 ∧
        (vector_minimum ([2] : List ℚ) [1]).map List.length = Except.ok 1 ∧
        (vector_maximum ([2] : List ℚ) [1]).map List.length = Except.ok 1 ∧
        (vector_floor ([2] : List ℚ)).length = 1 ∧
        (vector_ceil ([2] : List ℚ)).length = 1 ∧
        (vector_snap ([2] : List ℚ) 1).map List.length = Except.ok 1 ∧
        (vector_wrap ([2] : List ℚ) [0] [8]).map List.length = Except.ok 1 ∧
        (vector_sin [1, 0]).length = 2 ∧
        (vector_cos [1, 0]).length = 2 ∧
        (vector_tan [1, 0]).length = 2) :=
  ⟨by decide, by decide, by decide, by decide, by decide, by decide, by simp [dot_product],
    by decide, rfl,
    operations_preserve_length [2] [1] [0] [8] [7] [1, 0, 0] [0, 1, 0] 5 1 1
      [1, 0] [0, 1] 2 (by decide) (by decide) (by decide) (by decide) (by decide) (by decide)
      (by simp [dot_product]) (by decide) rfl⟩

end VectorMath
